import Mathlib

/-!
Verification development for the `@adonisjs/transmit` broadcast layer.

The orchestrator (`src/transmit.ts`, class `Transmit`) is embedded as pure
Lean functions over an explicit state (`Transmit`) that return an effect
trace: writes to client streams, publishes on the synchronization bus,
lifecycle-event emissions, and HTTP-response markings. The helper modules
`Stream`, `StreamChannelRepository` and `SecureChannelStore` are imported
by `transmit.ts` but their sources are not part of the shown tree, so they
are modelled from the specification (spec sections 4.1 and 4.2).
-/

namespace Adonis

/-- A JavaScript runtime value, as far as payloads are concerned. Numbers are
restricted to integers (floating point is out of scope for the claims). -/
inductive JsValue where
  | vNull
  | vUndefined
  | vBool (b : Bool)
  | vNum (n : Int)
  | vStr (s : String)
  | vObj (fields : List (String × JsValue))
deriving Repr

/-- JavaScript truthiness test on a `JsValue`: `null`, `undefined`, `false`,
`0` and the empty string are falsy, everything else (objects included) is
truthy. -/
def isFalsy : JsValue → Bool
  | JsValue.vNull => true
  | JsValue.vUndefined => true
  | JsValue.vBool b => !b
  | JsValue.vNum n => n == 0
  | JsValue.vStr s => s == ""
  | JsValue.vObj _ => false

/-- The empty object literal used as the default broadcast payload. -/
def emptyObject : JsValue := JsValue.vObj []

/-- A live client stream; `uid` is the client-assigned identity
(`stream.getUid()` in the source). The outbound transport handle is
external and tracked only through write effects. -/
structure Stream where
  uid : String
deriving Repr, DecidableEq

/-- Modelled from the spec: `StreamChannelRepository`
(`src/stream_channel_repository.ts` is not under the shown tree). Spec
section 4.1 describes a repository of registered streams with their
channel-membership sets; both indices (client to channels, channel to
streams) are derived views of one list keyed by stream uid, which realizes
the index-agreement invariant by construction. -/
structure StreamChannelRepository where
  subscribers : List (Stream × List String)
deriving Repr

/-- Modelled from the spec (section 4.1): registers a new stream keyed by
uid, with no channel membership yet. -/
def StreamChannelRepository.push (repo : StreamChannelRepository) (stream : Stream) :
    StreamChannelRepository :=
  ⟨repo.subscribers ++ [(stream, [])]⟩

/-- Modelled from the spec (section 4.1): deletes the stream from the uid
index and from every channel index it belonged to; idempotent. -/
def StreamChannelRepository.remove (repo : StreamChannelRepository) (stream : Stream) :
    StreamChannelRepository :=
  ⟨repo.subscribers.filter fun entry => entry.1.uid != stream.uid⟩

/-- Modelled from the spec (section 4.1): adds the channel to the client's
subscription set and the stream to the channel's subscriber set; returns
false and leaves the repository unchanged when no stream is registered for
`uid`; idempotent re-adds still return true. -/
def StreamChannelRepository.addChannelToStream (repo : StreamChannelRepository)
    (uid channel : String) : Bool × StreamChannelRepository :=
  match repo.subscribers.find? fun entry => entry.1.uid == uid with
  | none => (false, repo)
  | some _ =>
    (true, ⟨repo.subscribers.map fun entry =>
      if entry.1.uid == uid then
        (entry.1, if entry.2.contains channel then entry.2 else entry.2 ++ [channel])
      else entry⟩)

/-- Modelled from the spec (section 4.1): inverse of
`addChannelToStream`; returns false if the client or the membership does
not exist. -/
def StreamChannelRepository.removeChannelFromStream (repo : StreamChannelRepository)
    (uid channel : String) : Bool × StreamChannelRepository :=
  match repo.subscribers.find? fun entry => entry.1.uid == uid with
  | none => (false, repo)
  | some entry =>
    if entry.2.contains channel then
      (true, ⟨repo.subscribers.map fun other =>
        if other.1.uid == uid then (other.1, other.2.filter fun c => c != channel)
        else other⟩)
    else (false, repo)

/-- Modelled from the spec (section 4.1): all streams currently subscribed
to a channel, empty if none. -/
def StreamChannelRepository.findByChannel (repo : StreamChannelRepository)
    (channel : String) : List Stream :=
  repo.subscribers.filterMap fun entry =>
    if entry.2.contains channel then some entry.1 else none

/-- Modelled from the spec (section 4.1): all channels a given client is
subscribed to, or absent when the client is unknown. -/
def StreamChannelRepository.getChannelByClient (repo : StreamChannelRepository)
    (uid : String) : Option (List String) :=
  (repo.subscribers.find? fun entry => entry.1.uid == uid).map fun entry => entry.2

/-- Modelled from the spec (section 4.1): snapshot of every registered
stream with its channels, for heartbeat and enumeration purposes. -/
def StreamChannelRepository.getAllSubscribers (repo : StreamChannelRepository) :
    List (Stream × List String) :=
  repo.subscribers

/-- Splits a list of characters on a separator, mirroring path-segment
splitting of channel names. -/
def splitChars (sep : Char) : List Char → List (List Char)
  | [] => [[]]
  | c :: cs =>
    let rest := splitChars sep cs
    if c == sep then [] :: rest
    else
      match rest with
      | [] => [[c]]
      | r :: rs => (c :: r) :: rs

/-- Modelled from the spec (section 4.2): matches a pattern's path segments
against a concrete channel's segments; a segment starting with a colon
binds the remainder as a named parameter, any other segment must match
literally. Returns the bound parameters on success. -/
def matchSegments : List (List Char) → List (List Char) → Option (List (String × String))
  | [], [] => some []
  | p :: ps, c :: cs =>
    match p with
    | ':' :: name =>
      (matchSegments ps cs).map fun params => (String.mk name, String.mk c) :: params
    | _ => if p == c then matchSegments ps cs else none
  | _, _ => none

/-- The result of a successful secure-channel match: the registered pattern
(`definitions.url` in the source) and the extracted parameters
(`definitions.params`). -/
structure MatchedChannel where
  url : String
  params : List (String × String)
deriving Repr, DecidableEq

/-- Modelled from the spec: `SecureChannelStore`
(`src/secure_channel_store.ts` is not under the shown tree). Spec section
4.2: a registry of channel-name patterns requiring authorization, kept in
registration order. -/
structure SecureChannelStore where
  patterns : List String
deriving Repr

/-- Modelled from the spec (section 4.2): registers a pattern for
authorization. -/
def SecureChannelStore.add (store : SecureChannelStore) (pattern : String) :
    SecureChannelStore :=
  ⟨store.patterns ++ [pattern]⟩

/-- Modelled from the spec (section 4.2): tests the concrete name against
all registered patterns in registration order and returns the first match
with parameters bound, or none if unmatched. Named `matchChannel` because
`match` is a Lean keyword. -/
def SecureChannelStore.matchChannel (store : SecureChannelStore) (channel : String) :
    Option MatchedChannel :=
  store.patterns.findSome? fun pattern =>
    (matchSegments (splitChars '/' pattern.data) (splitChars '/' channel.data)).map
      fun params => ⟨pattern, params⟩

/-- The connection context (`HttpContext` in the source), reduced to what
the embedded operations consume: the value of `request.input('uid')`
(`none` when the request carries no uid field). -/
structure HttpContext where
  requestUid : Option String
deriving Repr, DecidableEq

/-- Outcome of running an authorization callback: it either returns a
boolean or raises. -/
inductive AuthResult where
  | ok (result : Bool)
  | err
deriving Repr, DecidableEq

/-- An authorization callback registered via `authorizeChannel`: it
receives the connection context and the extracted channel parameters. -/
def AuthCallback : Type := HttpContext → List (String × String) → AuthResult

/-- The tagged bus message union (`TransmitMessage` in the source):
Broadcast carries the payload, Subscribe and Unsubscribe carry the uid. -/
inductive TransmitMessage where
  | broadcast (channel : String) (payload : JsValue)
  | subscribe (channel : String) (uid : String)
  | unsubscribe (channel : String) (uid : String)
deriving Repr

/-- A lifecycle event emitted on the emittery instance
(`TransmitLifecycleHooks` in the source). -/
inductive LifecycleEvent where
  | connect (uid : String) (ctx : HttpContext)
  | disconnect (uid : String) (ctx : HttpContext)
  | broadcast (channel : String) (payload : JsValue)
  | subscribe (uid channel : String) (ctx : HttpContext)
  | unsubscribe (uid channel : String) (ctx : HttpContext)
deriving Repr

/-- An observable side effect of an orchestrator operation, in program
order: a message framed to one client stream (`stream.writeMessage`), a
publish on the synchronization bus (`bus.publish`), a lifecycle-event
emission (`emittery.emit`), or an HTTP authorization-outcome marking
(`response.forbidden()` and `response.internalServerError()`). -/
inductive Effect where
  | streamWrite (uid : String) (channel : String) (payload : JsValue)
  | busPublish (busChannel : String) (message : TransmitMessage)
  | emit (event : LifecycleEvent)
  | responseForbidden
  | responseInternalServerError
deriving Repr

/-- Projects the stream writes out of an effect trace, as
(stream uid, channel, payload) triples. -/
def streamWrites (effects : List Effect) : List (String × String × JsValue) :=
  effects.filterMap fun e =>
    match e with
    | Effect.streamWrite uid channel payload => some (uid, channel, payload)
    | _ => none

/-- Projects the bus publishes out of an effect trace, as
(bus channel, message) pairs. -/
def busPublishes (effects : List Effect) : List (String × TransmitMessage) :=
  effects.filterMap fun e =>
    match e with
    | Effect.busPublish busChannel message => some (busChannel, message)
    | _ => none

/-- Projects the lifecycle-event emissions out of an effect trace. -/
def emittedEvents (effects : List Effect) : List LifecycleEvent :=
  effects.filterMap fun e =>
    match e with
    | Effect.emit event => some event
    | _ => none

/-- Keeps the HTTP authorization-outcome markings of an effect trace. -/
def responseMarks (effects : List Effect) : List Effect :=
  effects.filter fun e =>
    match e with
    | Effect.responseForbidden => true
    | Effect.responseInternalServerError => true
    | _ => false

/-- The configured ping interval value: numeric milliseconds or a duration
string (`TransmitConfig.pingInterval` in the source). -/
inductive PingInterval where
  | ms (n : Nat)
  | duration (s : String)
deriving Repr, DecidableEq

/-- The configuration consumed by the orchestrator: the synchronization
channel name (`config.transport.channel`) and the optional ping
interval. -/
structure TransmitConfig where
  transportChannel : String
  pingInterval : Option PingInterval
deriving Repr, DecidableEq

/-- The orchestrator state (`class Transmit` in `src/transmit.ts`): the
stream repository, the secure channel store, the registered authorization
callbacks keyed by pattern, whether a bus transport was supplied
(`this.bus` is null otherwise), and the configuration. -/
structure Transmit where
  storage : StreamChannelRepository
  secureChannelStore : SecureChannelStore
  secureChannelCallbacks : List (String × AuthCallback)
  hasBus : Bool
  config : TransmitConfig

/-- Looks up the callback stored for a pattern
(`this.secureChannelCallbacks.get(definitions.url)` in the source). -/
def lookupCallback (callbacks : List (String × AuthCallback)) (url : String) :
    Option AuthCallback :=
  (callbacks.find? fun entry => entry.1 == url).map fun entry => entry.2

/-- The exclusion test of `Transmit.broadcastLocally`: when `senderUid` is
an array it is membership, when it is a single uid it is equality, and the
omitted argument excludes nobody. -/
def excludedUid : Option (String ⊕ List String) → String → Bool
  | none, _ => false
  | some (Sum.inl sender), uid => sender == uid
  | some (Sum.inr senders), uid => senders.contains uid

/-- `Transmit.broadcastLocally(channel, payload, senderUid?)`: writes the
payload to every stream in `findByChannel(channel)` whose uid is not
excluded by `senderUid`. -/
def Transmit.broadcastLocally (t : Transmit) (channel : String) (payload : JsValue)
    (senderUid : Option (String ⊕ List String)) : List Effect :=
  (t.storage.findByChannel channel).filterMap fun subscriber =>
    if excludedUid senderUid subscriber.uid then none
    else some (Effect.streamWrite subscriber.uid channel payload)

/-- `Transmit.broadcastExcept(channel, payload, senderUid)`: delegates to
the local fan-out with the exclusion set; nothing else. -/
def Transmit.broadcastExcept (t : Transmit) (channel : String) (payload : JsValue)
    (senderUid : String ⊕ List String) : List Effect :=
  t.broadcastLocally channel payload (some senderUid)

/-- `Transmit.broadcast(channel, payload?)`: replaces a falsy payload with
the empty object, publishes a Broadcast message on the configured bus
channel when a bus is present, fans out locally, and emits the broadcast
lifecycle event — in that order. An omitted payload arrives as
`JsValue.vUndefined`. -/
def Transmit.broadcast (t : Transmit) (channel : String) (payload : JsValue) :
    List Effect :=
  let payload := if isFalsy payload then emptyObject else payload
  (if t.hasBus then
    [Effect.busPublish t.config.transportChannel (TransmitMessage.broadcast channel payload)]
  else [])
  ++ t.broadcastLocally channel payload none
  ++ [Effect.emit (LifecycleEvent.broadcast channel payload)]

/-- The unconditional tail of `Transmit.$subscribeToChannel` (source lines
190-198): emit the subscribe lifecycle event, publish a Subscribe message
on the bus when present, then add the membership in the repository and
return its result. -/
def Transmit.finishSubscribe (t : Transmit) (uid channel : String) (ctx : HttpContext) :
    Bool × Transmit × List Effect :=
  let effects :=
    Effect.emit (LifecycleEvent.subscribe uid channel ctx)
    :: (if t.hasBus then
        [Effect.busPublish t.config.transportChannel (TransmitMessage.subscribe channel uid)]
      else [])
  let added := t.storage.addChannelToStream uid channel
  (added.1, { t with storage := added.2 }, effects)

/-- `Transmit.$subscribeToChannel(uid, channel, ctx)`: when the channel
matches a secured pattern, deny if no callback is registered, mark the
response forbidden and deny if the callback returns false, mark an internal
error and deny if it raises; otherwise (and for public channels) fall
through to `finishSubscribe`. -/
def Transmit.subscribeToChannel (t : Transmit) (uid channel : String) (ctx : HttpContext) :
    Bool × Transmit × List Effect :=
  match t.secureChannelStore.matchChannel channel with
  | some definitions =>
    match lookupCallback t.secureChannelCallbacks definitions.url with
    | none => (false, t, [])
    | some callback =>
      match callback ctx definitions.params with
      | AuthResult.err => (false, t, [Effect.responseInternalServerError])
      | AuthResult.ok result =>
        if !result then (false, t, [Effect.responseForbidden])
        else t.finishSubscribe uid channel ctx
  | none => t.finishSubscribe uid channel ctx

/-- `Transmit.$unsubscribeFromChannel(uid, channel, ctx)`: emit the
unsubscribe lifecycle event, publish an Unsubscribe message on the bus when
present, then remove the membership and return its result. -/
def Transmit.unsubscribeFromChannel (t : Transmit) (uid channel : String)
    (ctx : HttpContext) : Bool × Transmit × List Effect :=
  let effects :=
    Effect.emit (LifecycleEvent.unsubscribe uid channel ctx)
    :: (if t.hasBus then
        [Effect.busPublish t.config.transportChannel (TransmitMessage.unsubscribe channel uid)]
      else [])
  let removed := t.storage.removeChannelFromStream uid channel
  (removed.1, { t with storage := removed.2 }, effects)

/-- `Transmit.#ping()`: writes the fixed ping message (channel
`$$transmit/ping`, empty payload) to every registered stream. -/
def Transmit.ping (t : Transmit) : List Effect :=
  t.storage.getAllSubscribers.map fun entry =>
    Effect.streamWrite entry.1.uid "$$transmit/ping" emptyObject

/-- The constructor's guard for the heartbeat: the recurring timer is set
up exactly when `config.pingInterval` is truthy. -/
def heartbeatConfigured (config : TransmitConfig) : Bool :=
  match config.pingInterval with
  | none => false
  | some (PingInterval.ms n) => n != 0
  | some (PingInterval.duration s) => s != ""

/-- The handler the constructor registers on the bus's synchronization
channel (source lines 94-108): dispatch on the message tag — Broadcast
fans out locally, Subscribe adds the membership, Unsubscribe removes it.
Returns the updated state and the effect trace. -/
def Transmit.onBusMessage (t : Transmit) (message : TransmitMessage) :
    Transmit × List Effect :=
  match message with
  | TransmitMessage.broadcast channel payload =>
    (t, t.broadcastLocally channel payload none)
  | TransmitMessage.subscribe channel uid =>
    ({ t with storage := (t.storage.addChannelToStream uid channel).2 }, [])
  | TransmitMessage.unsubscribe channel uid =>
    ({ t with storage := (t.storage.removeChannelFromStream uid channel).2 }, [])

/-- The outcome of `Transmit.$createStream`: either the thrown validation
error for a missing uid, or the created stream. -/
inductive CreateStreamResult where
  | validationError
  | created (stream : Stream)
deriving Repr, DecidableEq

/-- JavaScript truthiness of `request.input('uid')`: absent and the empty
string are falsy. -/
def jsTruthyUid : Option String → Bool
  | none => false
  | some s => s != ""

/-- `Transmit.$createStream(ctx)`: throws when `request.input('uid')` is
falsy, before any stream is created or registered; otherwise creates a
stream with that uid, emits the connect lifecycle event and registers the
stream in the repository. The transport piping and the close-handler
registration act only on external handles and are not part of the
state. -/
def Transmit.createStream (t : Transmit) (ctx : HttpContext) :
    CreateStreamResult × Transmit × List Effect :=
  match ctx.requestUid with
  | none => (CreateStreamResult.validationError, t, [])
  | some uid =>
    if uid == "" then (CreateStreamResult.validationError, t, [])
    else
      (CreateStreamResult.created ⟨uid⟩,
       { t with storage := t.storage.push ⟨uid⟩ },
       [Effect.emit (LifecycleEvent.connect uid ctx)])

/-! ### Concrete fixtures

Small closed states used to instantiate the theorems below. -/

/-- A registered stream with uid `a`. -/
def streamA : Stream := ⟨"a"⟩

/-- A registered stream with uid `b`. -/
def streamB : Stream := ⟨"b"⟩

/-- A registered stream with uid `c`. -/
def streamC : Stream := ⟨"c"⟩

/-- A repository where `a` and `b` subscribe to `room/1` and `c` is
registered with no subscription. -/
def repoRoom : StreamChannelRepository :=
  ⟨[(streamA, ["room/1"]), (streamB, ["room/1"]), (streamC, [])]⟩

/-- A configuration with a synchronization channel and a one-second ping
interval. -/
def configWithPing : TransmitConfig :=
  ⟨"transmit::broadcast", some (PingInterval.ms 1000)⟩

/-- An authorization callback that always denies. -/
def cbDeny : AuthCallback := fun _ _ => AuthResult.ok false

/-- An authorization callback that always raises. -/
def cbRaise : AuthCallback := fun _ _ => AuthResult.err

/-- An authorization callback that always allows. -/
def cbAllow : AuthCallback := fun _ _ => AuthResult.ok true

/-- An orchestrator with three registered streams, no secured patterns and
a bus. -/
def tBroadcast : Transmit :=
  ⟨repoRoom, ⟨[]⟩, [], true, configWithPing⟩

/-- An orchestrator whose secured pattern `chat/:id` carries a denying
callback. -/
def tDeny : Transmit :=
  ⟨repoRoom, ⟨["chat/:id"]⟩, [("chat/:id", cbDeny)], true, configWithPing⟩

/-- An orchestrator whose secured pattern `chat/:id` carries a raising
callback. -/
def tRaise : Transmit :=
  ⟨repoRoom, ⟨["chat/:id"]⟩, [("chat/:id", cbRaise)], true, configWithPing⟩

/-- An orchestrator whose secured pattern `chat/:id` has no registered
callback. -/
def tNoCallback : Transmit :=
  ⟨repoRoom, ⟨["chat/:id"]⟩, [], true, configWithPing⟩

/-- An orchestrator whose secured pattern `priv/:id` carries an allowing
callback, next to public channels. -/
def tAllow : Transmit :=
  ⟨repoRoom, ⟨["priv/:id"]⟩, [("priv/:id", cbAllow)], true, configWithPing⟩

/-- A connection context carrying uid `a`. -/
def ctxA : HttpContext := ⟨some "a"⟩

/-- A connection context carrying no uid. -/
def ctxNoUid : HttpContext := ⟨none⟩

/-- A connection context carrying the empty-string uid. -/
def ctxEmptyUid : HttpContext := ⟨some ""⟩

/-- A truthy object payload. -/
def payloadHi : JsValue := JsValue.vObj [("msg", JsValue.vStr "hi")]

/-! ### Helper lemmas about the effect-trace projections -/

/-- The empty trace has no stream writes. -/
theorem streamWrites_nil : streamWrites [] = [] := rfl

/-- The empty trace has no bus publishes. -/
theorem busPublishes_nil : busPublishes [] = [] := rfl

/-- The empty trace emits no lifecycle event. -/
theorem emittedEvents_nil : emittedEvents [] = [] := rfl

/-- The empty trace marks no authorization outcome. -/
theorem responseMarks_nil : responseMarks [] = [] := rfl

/-- Computation rule for `streamWrites` on a cons cell. -/
theorem streamWrites_cons (e : Effect) (l : List Effect) :
    streamWrites (e :: l)
      = (match e with
         | Effect.streamWrite uid channel payload => [(uid, channel, payload)]
         | _ => []) ++ streamWrites l := by
  cases e <;> rfl

/-- Computation rule for `busPublishes` on a cons cell. -/
theorem busPublishes_cons (e : Effect) (l : List Effect) :
    busPublishes (e :: l)
      = (match e with
         | Effect.busPublish busChannel message => [(busChannel, message)]
         | _ => []) ++ busPublishes l := by
  cases e <;> rfl

/-- Computation rule for `emittedEvents` on a cons cell. -/
theorem emittedEvents_cons (e : Effect) (l : List Effect) :
    emittedEvents (e :: l)
      = (match e with
         | Effect.emit event => [event]
         | _ => []) ++ emittedEvents l := by
  cases e <;> rfl

/-- Computation rule for `responseMarks` on a cons cell. -/
theorem responseMarks_cons (e : Effect) (l : List Effect) :
    responseMarks (e :: l)
      = (match e with
         | Effect.responseForbidden => [Effect.responseForbidden]
         | Effect.responseInternalServerError => [Effect.responseInternalServerError]
         | _ => []) ++ responseMarks l := by
  cases e <;> rfl

/-- `streamWrites` distributes over concatenation. -/
theorem streamWrites_append (l1 l2 : List Effect) :
    streamWrites (l1 ++ l2) = streamWrites l1 ++ streamWrites l2 := by
  simp [streamWrites, List.filterMap_append]

/-- `busPublishes` distributes over concatenation. -/
theorem busPublishes_append (l1 l2 : List Effect) :
    busPublishes (l1 ++ l2) = busPublishes l1 ++ busPublishes l2 := by
  simp [busPublishes, List.filterMap_append]

/-- `emittedEvents` distributes over concatenation. -/
theorem emittedEvents_append (l1 l2 : List Effect) :
    emittedEvents (l1 ++ l2) = emittedEvents l1 ++ emittedEvents l2 := by
  simp [emittedEvents, List.filterMap_append]

/-- `responseMarks` distributes over concatenation. -/
theorem responseMarks_append (l1 l2 : List Effect) :
    responseMarks (l1 ++ l2) = responseMarks l1 ++ responseMarks l2 := by
  simp [responseMarks, List.filter_append]

/-- The stream writes of a local fan-out are exactly the non-excluded
subscribers of the channel, in repository order. -/
theorem streamWrites_broadcastLocally (t : Transmit) (channel : String) (payload : JsValue)
    (senderUid : Option (String ⊕ List String)) :
    streamWrites (t.broadcastLocally channel payload senderUid)
      = ((t.storage.findByChannel channel).filter fun s => !excludedUid senderUid s.uid).map
          fun s => (s.uid, channel, payload) := by
  unfold Transmit.broadcastLocally
  induction t.storage.findByChannel channel with
  | nil => rfl
  | cons s rest ih =>
    cases h : excludedUid senderUid s.uid <;>
      simp [List.filterMap_cons, List.filter_cons, streamWrites_cons, h, ih]

/-- A local fan-out publishes nothing on the bus. -/
theorem busPublishes_broadcastLocally (t : Transmit) (channel : String) (payload : JsValue)
    (senderUid : Option (String ⊕ List String)) :
    busPublishes (t.broadcastLocally channel payload senderUid) = [] := by
  unfold Transmit.broadcastLocally
  induction t.storage.findByChannel channel with
  | nil => rfl
  | cons s rest ih =>
    cases h : excludedUid senderUid s.uid <;>
      simp [List.filterMap_cons, busPublishes_cons, h, ih]

/-- A local fan-out emits no lifecycle event. -/
theorem emittedEvents_broadcastLocally (t : Transmit) (channel : String) (payload : JsValue)
    (senderUid : Option (String ⊕ List String)) :
    emittedEvents (t.broadcastLocally channel payload senderUid) = [] := by
  unfold Transmit.broadcastLocally
  induction t.storage.findByChannel channel with
  | nil => rfl
  | cons s rest ih =>
    cases h : excludedUid senderUid s.uid <;>
      simp [List.filterMap_cons, emittedEvents_cons, h, ih]

/-- A local fan-out marks no authorization outcome on the response. -/
theorem responseMarks_broadcastLocally (t : Transmit) (channel : String) (payload : JsValue)
    (senderUid : Option (String ⊕ List String)) :
    responseMarks (t.broadcastLocally channel payload senderUid) = [] := by
  unfold Transmit.broadcastLocally
  induction t.storage.findByChannel channel with
  | nil => rfl
  | cons s rest ih =>
    cases h : excludedUid senderUid s.uid <;>
      simp [List.filterMap_cons, responseMarks_cons, h, ih]

/-- The stream writes of `broadcast`: one write per subscriber of the
channel, carrying the payload normalized by the falsy-payload
replacement. -/
theorem streamWrites_broadcast (t : Transmit) (channel : String) (payload : JsValue) :
    streamWrites (t.broadcast channel payload)
      = (t.storage.findByChannel channel).map
          (fun s => (s.uid, channel, if isFalsy payload then emptyObject else payload)) := by
  unfold Transmit.broadcast
  cases hb : t.hasBus <;> cases hf : isFalsy payload <;>
    simp [hb, hf, streamWrites_append, streamWrites_cons, streamWrites_nil,
      streamWrites_broadcastLocally, excludedUid]

/-! ### Claims -/

/-- C1: whatever the payload, `broadcast(channel, payload)` writes to
exactly the streams returned by `findByChannel(channel)` at call time and
to no other stream, and for a truthy payload each write carries exactly the
payload; `broadcastExcept(channel, payload, excluded)` writes the payload
to that same set minus every stream whose uid equals the excluded uid or is
contained in the excluded uid list. -/
theorem broadcast_delivers_exactly_findByChannel (t : Transmit) (channel : String)
    (payload : JsValue) (senderUid : String ⊕ List String)
    (h : isFalsy payload = false) :
    (streamWrites (t.broadcast channel payload)).map Prod.fst
      = (t.storage.findByChannel channel).map (fun s => s.uid)
    ∧ streamWrites (t.broadcast channel payload)
      = (t.storage.findByChannel channel).map (fun s => (s.uid, channel, payload))
    ∧ streamWrites (t.broadcastExcept channel payload senderUid)
      = ((t.storage.findByChannel channel).filter fun s =>
          !excludedUid (some senderUid) s.uid).map fun s => (s.uid, channel, payload) := by
  refine ⟨?_, ?_, ?_⟩
  · rw [streamWrites_broadcast]
    simp only [List.map_map]
    rfl
  · rw [streamWrites_broadcast, h]
    rfl
  · unfold Transmit.broadcastExcept
    rw [streamWrites_broadcastLocally]

/-- Witness for C1 at a concrete state: three registered streams, two of
them subscribed to `room/1`, excluding uid `a`. -/
theorem broadcast_delivers_exactly_findByChannel_witness :
    isFalsy payloadHi = false
    ∧ ((streamWrites (tBroadcast.broadcast "room/1" payloadHi)).map Prod.fst
        = (tBroadcast.storage.findByChannel "room/1").map (fun s => s.uid)
      ∧ streamWrites (tBroadcast.broadcast "room/1" payloadHi)
        = (tBroadcast.storage.findByChannel "room/1").map (fun s => (s.uid, "room/1", payloadHi))
      ∧ streamWrites (tBroadcast.broadcastExcept "room/1" payloadHi (Sum.inl "a"))
        = ((tBroadcast.storage.findByChannel "room/1").filter fun s =>
            !excludedUid (some (Sum.inl "a")) s.uid).map fun s => (s.uid, "room/1", payloadHi)) :=
  ⟨rfl, broadcast_delivers_exactly_findByChannel tBroadcast "room/1" payloadHi (Sum.inl "a") rfl⟩

/-- C2: the bus handler dispatches by tag — a Broadcast message triggers
only the local fan-out, a Subscribe message applies
`addChannelToStream(uid, channel)` to the registry, an Unsubscribe message
applies `removeChannelFromStream(uid, channel)`; in no case is any message
re-published on the bus, in no case is an authorization outcome marked, and
the handler's behaviour is independent of the secure channel store and the
registered authorization callbacks. -/
theorem onBusMessage_dispatch (t : Transmit) (message : TransmitMessage)
    (channel uid : String) (payload : JsValue)
    (store : SecureChannelStore) (callbacks : List (String × AuthCallback)) :
    t.onBusMessage (TransmitMessage.broadcast channel payload)
      = (t, t.broadcastLocally channel payload none)
    ∧ t.onBusMessage (TransmitMessage.subscribe channel uid)
      = ({ t with storage := (t.storage.addChannelToStream uid channel).2 }, [])
    ∧ t.onBusMessage (TransmitMessage.unsubscribe channel uid)
      = ({ t with storage := (t.storage.removeChannelFromStream uid channel).2 }, [])
    ∧ busPublishes (t.onBusMessage message).2 = []
    ∧ responseMarks (t.onBusMessage message).2 = []
    ∧ ({ t with secureChannelStore := store, secureChannelCallbacks := callbacks }
        : Transmit).onBusMessage message
      = ({ (t.onBusMessage message).1 with
            secureChannelStore := store, secureChannelCallbacks := callbacks },
         (t.onBusMessage message).2) := by
  refine ⟨rfl, rfl, rfl, ?_, ?_, ?_⟩
  · cases message <;>
      simp [Transmit.onBusMessage, busPublishes_nil, busPublishes_broadcastLocally]
  · cases message <;>
      simp [Transmit.onBusMessage, responseMarks_nil, responseMarks_broadcastLocally]
  · cases message <;>
      simp [Transmit.onBusMessage, Transmit.broadcastLocally,
        StreamChannelRepository.addChannelToStream,
        StreamChannelRepository.removeChannelFromStream]

/-- C3: `broadcastExcept` performs the local fan-out but never publishes
any SyncMessage on the bus, whereas `broadcast` always publishes a
Broadcast SyncMessage on the configured synchronization channel when a bus
is present (and none when no bus is configured), in addition to its local
fan-out. -/
theorem broadcastExcept_never_publishes (t : Transmit) (channel : String)
    (payload : JsValue) (senderUid : String ⊕ List String) :
    t.broadcastExcept channel payload senderUid
      = t.broadcastLocally channel payload (some senderUid)
    ∧ busPublishes (t.broadcastExcept channel payload senderUid) = []
    ∧ busPublishes (t.broadcast channel payload)
      = (if t.hasBus then
          [(t.config.transportChannel,
            TransmitMessage.broadcast channel
              (if isFalsy payload then emptyObject else payload))]
        else [])
    ∧ streamWrites (t.broadcast channel payload)
      = streamWrites
          (t.broadcastLocally channel
            (if isFalsy payload then emptyObject else payload) none) := by
  refine ⟨rfl, busPublishes_broadcastLocally t channel payload (some senderUid), ?_, ?_⟩
  · unfold Transmit.broadcast
    cases hb : t.hasBus <;>
      cases hf : isFalsy payload <;>
        simp [hb, hf, busPublishes_append, busPublishes_cons, busPublishes_nil,
          busPublishes_broadcastLocally]
  · unfold Transmit.broadcast
    cases hb : t.hasBus <;>
      cases hf : isFalsy payload <;>
        simp [hb, hf, streamWrites_append, streamWrites_cons, streamWrites_nil]

/-- C8: every heartbeat tick writes to every currently registered stream —
whether or not it has any channel subscription — exactly one message whose
channel name is `$$transmit/ping` and whose payload is empty; and when no
ping interval is configured the constructor sets up no heartbeat timer. -/
theorem ping_writes_all_registered_streams (t : Transmit) (s : Stream)
    (chName : String) :
    streamWrites t.ping
      = t.storage.getAllSubscribers.map
          (fun entry => (entry.1.uid, "$$transmit/ping", emptyObject))
    ∧ streamWrites ({ t with storage := t.storage.push s } : Transmit).ping
      = streamWrites t.ping ++ [(s.uid, "$$transmit/ping", emptyObject)]
    ∧ heartbeatConfigured ⟨chName, none⟩ = false := by
  have hping : ∀ u : Transmit,
      streamWrites u.ping
        = u.storage.getAllSubscribers.map
            (fun entry => (entry.1.uid, "$$transmit/ping", emptyObject)) := by
    intro u
    unfold Transmit.ping
    induction u.storage.getAllSubscribers with
    | nil => rfl
    | cons e rest ih => simp [streamWrites_cons, ih]
  refine ⟨hping t, ?_, rfl⟩
  rw [hping, hping]
  simp [StreamChannelRepository.push, StreamChannelRepository.getAllSubscribers]

/-- C10: `broadcast` replaces every falsy payload — `0`, the empty string,
`false`, `null` and the omitted/undefined payload alike — with the empty
object, both in the local stream writes and in the Broadcast SyncMessage
published on the bus. -/
theorem broadcast_replaces_falsy_payload (t : Transmit) (channel : String)
    (payload : JsValue) (h : isFalsy payload = true) :
    streamWrites (t.broadcast channel payload)
      = (t.storage.findByChannel channel).map (fun s => (s.uid, channel, emptyObject))
    ∧ busPublishes (t.broadcast channel payload)
      = (if t.hasBus then
          [(t.config.transportChannel, TransmitMessage.broadcast channel emptyObject)]
        else [])
    ∧ isFalsy (JsValue.vNum 0) = true
    ∧ isFalsy (JsValue.vStr "") = true
    ∧ isFalsy (JsValue.vBool false) = true
    ∧ isFalsy JsValue.vNull = true
    ∧ isFalsy JsValue.vUndefined = true := by
  refine ⟨?_, ?_, rfl, rfl, rfl, rfl, rfl⟩
  · unfold Transmit.broadcast
    cases hb : t.hasBus <;>
      simp [h, hb, streamWrites_append, streamWrites_cons, streamWrites_nil,
        streamWrites_broadcastLocally, excludedUid]
  · unfold Transmit.broadcast
    cases hb : t.hasBus <;>
      simp [h, hb, busPublishes_append, busPublishes_cons, busPublishes_nil,
        busPublishes_broadcastLocally]

/-- Witness for C10: broadcasting the falsy payload of an empty string on a
concrete state delivers the empty object to both subscribers of `room/1`
and publishes the empty object on the bus. -/
theorem broadcast_replaces_falsy_payload_witness :
    isFalsy (JsValue.vStr "") = true
    ∧ (streamWrites (tBroadcast.broadcast "room/1" (JsValue.vStr ""))
        = (tBroadcast.storage.findByChannel "room/1").map
            (fun s => (s.uid, "room/1", emptyObject))
      ∧ busPublishes (tBroadcast.broadcast "room/1" (JsValue.vStr ""))
        = (if tBroadcast.hasBus then
            [(tBroadcast.config.transportChannel,
              TransmitMessage.broadcast "room/1" emptyObject)]
          else [])
      ∧ isFalsy (JsValue.vNum 0) = true
      ∧ isFalsy (JsValue.vStr "") = true
      ∧ isFalsy (JsValue.vBool false) = true
      ∧ isFalsy JsValue.vNull = true
      ∧ isFalsy JsValue.vUndefined = true) :=
  ⟨rfl, broadcast_replaces_falsy_payload tBroadcast "room/1" (JsValue.vStr "") rfl⟩

/-- C4: for every uid with no registered stream in the repository,
`subscribe(uid, channel, ctx)` returns false and leaves the repository —
and with it both derived indices — unchanged, whatever the secured-channel
configuration does on the way. -/
theorem subscribe_unknown_uid_no_mutation (t : Transmit) (uid channel : String)
    (ctx : HttpContext)
    (h : t.storage.subscribers.find? (fun entry => entry.1.uid == uid) = none) :
    (t.subscribeToChannel uid channel ctx).1 = false
    ∧ (t.subscribeToChannel uid channel ctx).2.1.storage = t.storage := by
  have hadd : t.storage.addChannelToStream uid channel = (false, t.storage) := by
    unfold StreamChannelRepository.addChannelToStream
    rw [h]
  unfold Transmit.subscribeToChannel
  cases hm : t.secureChannelStore.matchChannel channel with
  | none => simp [Transmit.finishSubscribe, hadd]
  | some d =>
    cases hc : lookupCallback t.secureChannelCallbacks d.url with
    | none => simp [hc]
    | some cb =>
      cases hr : cb ctx d.params with
      | err => simp [hc, hr]
      | ok result =>
        cases result
        · simp [hc, hr]
        · simp [hc, hr, Transmit.finishSubscribe, hadd]

/-- Witness for C4: subscribing uid `ghost` — which has no registered
stream — to the public channel `room/1` returns false and leaves the
repository unchanged. -/
theorem subscribe_unknown_uid_no_mutation_witness :
    (tBroadcast.storage.subscribers.find? (fun entry => entry.1.uid == "ghost") = none)
    ∧ ((tBroadcast.subscribeToChannel "ghost" "room/1" ctxA).1 = false
      ∧ (tBroadcast.subscribeToChannel "ghost" "room/1" ctxA).2.1.storage
          = tBroadcast.storage) :=
  ⟨rfl, subscribe_unknown_uid_no_mutation tBroadcast "ghost" "room/1" ctxA rfl⟩

/-- C5: on a channel matching a secured pattern whose callback exists, a
falsy callback result marks the response forbidden and subscribe returns
false, a raising callback marks an internal error and subscribe returns
false; in both cases no exception propagates (the embedded operation is
total) and the state — the repository included — is unchanged. -/
theorem subscribe_callback_denies_or_raises (t : Transmit) (uid channel : String)
    (ctx : HttpContext) (d : MatchedChannel) (cb : AuthCallback)
    (hmatch : t.secureChannelStore.matchChannel channel = some d)
    (hcb : lookupCallback t.secureChannelCallbacks d.url = some cb) :
    (cb ctx d.params = AuthResult.ok false →
      t.subscribeToChannel uid channel ctx = (false, t, [Effect.responseForbidden]))
    ∧ (cb ctx d.params = AuthResult.err →
      t.subscribeToChannel uid channel ctx
        = (false, t, [Effect.responseInternalServerError])) := by
  constructor <;> intro hr <;> simp [Transmit.subscribeToChannel, hmatch, hcb, hr]

/-- Witness for C5: on `chat/42`, secured by `chat/:id`, the denying
callback yields a forbidden response and the raising callback an internal
error, both with result false and unchanged state. -/
theorem subscribe_callback_denies_or_raises_witness :
    tDeny.subscribeToChannel "a" "chat/42" ctxA = (false, tDeny, [Effect.responseForbidden])
    ∧ tRaise.subscribeToChannel "a" "chat/42" ctxA
        = (false, tRaise, [Effect.responseInternalServerError]) :=
  ⟨(subscribe_callback_denies_or_raises tDeny "a" "chat/42" ctxA
      ⟨"chat/:id", [("id", "42")]⟩ cbDeny rfl rfl).1 rfl,
   (subscribe_callback_denies_or_raises tRaise "a" "chat/42" ctxA
      ⟨"chat/:id", [("id", "42")]⟩ cbRaise rfl rfl).2 rfl⟩

/-- C6: a subscribe attempt on a channel matching a registered secure
pattern with no stored callback returns false for every uid and context,
with no effect at all — no lifecycle event, no bus publish, no response
marking — and the state unchanged. -/
theorem subscribe_secured_without_callback_denies (t : Transmit) (uid channel : String)
    (ctx : HttpContext) (d : MatchedChannel)
    (hmatch : t.secureChannelStore.matchChannel channel = some d)
    (hcb : lookupCallback t.secureChannelCallbacks d.url = none) :
    t.subscribeToChannel uid channel ctx = (false, t, []) := by
  simp [Transmit.subscribeToChannel, hmatch, hcb]

/-- Witness for C6: `chat/42` matches the secured pattern `chat/:id` of a
store with no registered callback, and subscribe denies with no effects. -/
theorem subscribe_secured_without_callback_denies_witness :
    tNoCallback.subscribeToChannel "a" "chat/42" ctxA = (false, tNoCallback, []) :=
  subscribe_secured_without_callback_denies tNoCallback "a" "chat/42" ctxA
    ⟨"chat/:id", [("id", "42")]⟩ rfl rfl

/-- C9: once authorization passes or the channel is public, subscribe emits
its lifecycle event and publishes its Subscribe SyncMessage before
consulting the registry, and unsubscribe does the same unconditionally, so
these side effects occur even when the operation then returns false — the
returned boolean is exactly the registry operation's result. -/
theorem subscribe_unsubscribe_effects_precede_registry (t : Transmit)
    (uid channel securedChannel : String) (ctx : HttpContext)
    (d : MatchedChannel) (cb : AuthCallback)
    (hpublic : t.secureChannelStore.matchChannel channel = none)
    (hmatch : t.secureChannelStore.matchChannel securedChannel = some d)
    (hcb : lookupCallback t.secureChannelCallbacks d.url = some cb)
    (hok : cb ctx d.params = AuthResult.ok true) :
    (t.subscribeToChannel uid channel ctx).2.2
      = Effect.emit (LifecycleEvent.subscribe uid channel ctx)
        :: (if t.hasBus then
            [Effect.busPublish t.config.transportChannel
              (TransmitMessage.subscribe channel uid)]
          else [])
    ∧ (t.subscribeToChannel uid channel ctx).1
        = (t.storage.addChannelToStream uid channel).1
    ∧ (t.subscribeToChannel uid securedChannel ctx).2.2
      = Effect.emit (LifecycleEvent.subscribe uid securedChannel ctx)
        :: (if t.hasBus then
            [Effect.busPublish t.config.transportChannel
              (TransmitMessage.subscribe securedChannel uid)]
          else [])
    ∧ (t.unsubscribeFromChannel uid channel ctx).2.2
      = Effect.emit (LifecycleEvent.unsubscribe uid channel ctx)
        :: (if t.hasBus then
            [Effect.busPublish t.config.transportChannel
              (TransmitMessage.unsubscribe channel uid)]
          else [])
    ∧ (t.unsubscribeFromChannel uid channel ctx).1
        = (t.storage.removeChannelFromStream uid channel).1 := by
  refine ⟨?_, ?_, ?_, rfl, rfl⟩
  · simp [Transmit.subscribeToChannel, hpublic, Transmit.finishSubscribe]
  · simp [Transmit.subscribeToChannel, hpublic, Transmit.finishSubscribe]
  · simp [Transmit.subscribeToChannel, hmatch, hcb, hok, Transmit.finishSubscribe]

/-- Witness for C9: subscribing the unregistered uid `ghost` to the public
channel `room/1` and to the authorized secured channel `priv/7` still emits
the events and publishes the SyncMessages, while the registry returns
false; same for unsubscribe. -/
theorem subscribe_unsubscribe_effects_precede_registry_witness :
    ((tAllow.subscribeToChannel "ghost" "room/1" ctxA).2.2
      = Effect.emit (LifecycleEvent.subscribe "ghost" "room/1" ctxA)
        :: (if tAllow.hasBus then
            [Effect.busPublish tAllow.config.transportChannel
              (TransmitMessage.subscribe "room/1" "ghost")]
          else [])
    ∧ (tAllow.subscribeToChannel "ghost" "room/1" ctxA).1
        = (tAllow.storage.addChannelToStream "ghost" "room/1").1
    ∧ (tAllow.subscribeToChannel "ghost" "priv/7" ctxA).2.2
      = Effect.emit (LifecycleEvent.subscribe "ghost" "priv/7" ctxA)
        :: (if tAllow.hasBus then
            [Effect.busPublish tAllow.config.transportChannel
              (TransmitMessage.subscribe "priv/7" "ghost")]
          else [])
    ∧ (tAllow.unsubscribeFromChannel "ghost" "room/1" ctxA).2.2
      = Effect.emit (LifecycleEvent.unsubscribe "ghost" "room/1" ctxA)
        :: (if tAllow.hasBus then
            [Effect.busPublish tAllow.config.transportChannel
              (TransmitMessage.unsubscribe "room/1" "ghost")]
          else [])
    ∧ (tAllow.unsubscribeFromChannel "ghost" "room/1" ctxA).1
        = (tAllow.storage.removeChannelFromStream "ghost" "room/1").1) :=
  subscribe_unsubscribe_effects_precede_registry tAllow "ghost" "room/1" "priv/7" ctxA
    ⟨"priv/:id", [("id", "7")]⟩ cbAllow rfl rfl rfl rfl

/-- C7 (amended): `createStream` raises the validation error and leaves the
state unchanged exactly when `request.input('uid')` is falsy — absent or
the empty string; for every truthy uid it creates, registers and returns a
stream with that uid and emits the connect event. -/
theorem createStream_requires_truthy_uid (t : Transmit) (ctx : HttpContext)
    (uid : String) :
    (jsTruthyUid ctx.requestUid = false →
      (t.createStream ctx).1 = CreateStreamResult.validationError
      ∧ (t.createStream ctx).2.1 = t)
    ∧ (ctx.requestUid = some uid → jsTruthyUid ctx.requestUid = true →
      t.createStream ctx
        = (CreateStreamResult.created ⟨uid⟩,
           { t with storage := t.storage.push ⟨uid⟩ },
           [Effect.emit (LifecycleEvent.connect uid ctx)])) := by
  constructor
  · intro h
    cases hu : ctx.requestUid with
    | none => exact ⟨by simp [Transmit.createStream, hu], by simp [Transmit.createStream, hu]⟩
    | some u =>
      rw [hu] at h
      simp only [jsTruthyUid, bne_eq_false_iff_eq] at h
      constructor <;> simp [Transmit.createStream, hu, h]
  · intro hu ht
    rw [hu] at ht
    simp only [jsTruthyUid, bne_iff_ne, ne_eq] at ht
    simp [Transmit.createStream, hu, ht]

/-- C7 counterexample: the context whose request carries the empty-string
uid does carry a uid value, yet `createStream` raises the validation error
and creates no stream, refuting the claim that every context carrying a uid
gets a stream created, registered and returned. -/
theorem createStream_empty_uid_counterexample :
    ctxEmptyUid.requestUid = some ""
    ∧ (tBroadcast.createStream ctxEmptyUid).1 = CreateStreamResult.validationError
    ∧ (tBroadcast.createStream ctxEmptyUid).1 ≠ CreateStreamResult.created ⟨""⟩
    ∧ (tBroadcast.createStream ctxEmptyUid).2.1 = tBroadcast :=
  ⟨rfl, rfl, by simp [Transmit.createStream, ctxEmptyUid], rfl⟩

/-- Witness for C7 (amended): a context without uid raises the validation
error and leaves the state unchanged; the context carrying uid `a` gets a
stream created, registered and returned. -/
theorem createStream_requires_truthy_uid_witness :
    ((tBroadcast.createStream ctxNoUid).1 = CreateStreamResult.validationError
      ∧ (tBroadcast.createStream ctxNoUid).2.1 = tBroadcast)
    ∧ tBroadcast.createStream ctxA
        = (CreateStreamResult.created ⟨"a"⟩,
           { tBroadcast with storage := tBroadcast.storage.push ⟨"a"⟩ },
           [Effect.emit (LifecycleEvent.connect "a" ctxA)]) :=
  ⟨(createStream_requires_truthy_uid tBroadcast ctxNoUid "a").1 rfl,
   (createStream_requires_truthy_uid tBroadcast ctxA "a").2 rfl rfl⟩

end Adonis
